import Mathlib

/-!
Verification development for the real-time collaboration engine
(socket handlers for drawing, chat, presence, and screen-share signaling).

The definitions below are a shallow embedding of the JavaScript source:

* sockets/boardHandlers.js  — stroke validation/sanitisation, draw/erase,
  clear_board, undo/redo
* sockets/roomHandlers.js   — join_room/leave_room, send_message, cursor:move,
  presence computation
* sockets/screenHandlers.js — WebRTC signaling relay
* models/Stroke.js, models/Message.js, models/Room.js — persistence queries

JavaScript dynamic values that reach the validators are modelled by the
inductive type JsVal (undefined, null, booleans, numbers, strings, arrays,
objects); numbers are modelled as integers, which covers every distinction
the handlers test (typeof checks, positivity, emptiness).  Socket.io routing
is modelled by a Target for each emit together with a decidable predicate
receivesB saying which connections a target reaches: a socket is a member
of the room named by its own socket id and of the room key it has joined,
socket.emit reaches exactly the sender, socket.to(key) reaches the members
of key except the sender, and namespace.to(key) reaches all members of key.
Persistence stores are lists kept in creation order (createdAt ascending),
so the Mongo queries "sort by createdAt ascending" and "find by room"
become order-preserving filters.
-/

/-- A JavaScript runtime value, as far as the handlers inspect one. -/
inductive JsVal where
  | undefV
  | nullV
  | bool (b : Bool)
  | num (n : Int)
  | str (s : String)
  | arr (elems : List JsVal)
  | obj (fields : List (String × JsVal))

/-- JavaScript truthiness for a JsVal. -/
def jsTruthy : JsVal → Bool
  | .undefV => false
  | .nullV => false
  | .bool b => b
  | .num n => n != 0
  | .str s => s != ""
  | .arr _ => true
  | .obj _ => true

/-- The JavaScript typeof operator on a JsVal. -/
def jsTypeof : JsVal → String
  | .undefV => "undefined"
  | .nullV => "object"
  | .bool _ => "boolean"
  | .num _ => "number"
  | .str _ => "string"
  | .arr _ => "object"
  | .obj _ => "object"

/-- First binding of a key in an object literal's field list. -/
def lookupField : List (String × JsVal) → String → JsVal
  | [], _ => .undefV
  | (k, v) :: rest, key => if k = key then v else lookupField rest key

/-- Property access v.key: undefined unless v is an object with that key. -/
def getProp : JsVal → String → JsVal
  | .obj fields, key => lookupField fields key
  | _, _ => .undefV

/-- The ALLOWED_TOOLS set from boardHandlers.js. -/
def ALLOWED_TOOLS : List String := ["pen", "eraser", "line", "rect", "ellipse", "text"]

/-- MAX_POINTS from boardHandlers.js. -/
def MAX_POINTS : Nat := 5000

/-- JS String.prototype.slice(0, n): the first n characters. -/
def jsSlice (s : String) (n : Nat) : String :=
  ⟨s.data.take n⟩

/-- JS String.prototype.trim: strip leading and trailing whitespace. -/
def jsTrim (s : String) : String :=
  ⟨((s.data.dropWhile Char.isWhitespace).reverse.dropWhile Char.isWhitespace).reverse⟩

/-- ALLOWED_TOOLS.has(v): a JS Set of strings contains v only if v is that string. -/
def toolAllowed : JsVal → Bool
  | .str s => ALLOWED_TOOLS.contains s
  | _ => false

/-- typeof v === number ∧ v > 0, the size check. -/
def isPositiveNumber : JsVal → Bool
  | .num n => 0 < n
  | _ => false

/-- typeof p.x === number ∧ typeof p.y === number for one points element. -/
def isNumPoint (p : JsVal) : Bool :=
  jsTypeof (getProp p "x") == "number" && jsTypeof (getProp p "y") == "number"

/-- validateStroke from boardHandlers.js: returns the error string of the
first violated rule, or none when the payload is valid.  The checks and
their order are exactly those of the source. -/
def validateStroke (payload : JsVal) : Option String :=
  if ¬ jsTruthy payload ∨ jsTypeof payload ≠ "object" then
    some "payload must be an object"
  else if jsTypeof (getProp payload "id") ≠ "string" then
    some "id must be a string"
  else if ¬ toolAllowed (getProp payload "tool") then
    some ("tool must be one of: " ++ String.intercalate ", " ALLOWED_TOOLS)
  else if jsTypeof (getProp payload "color") ≠ "string" then
    some "color must be a string"
  else if ¬ isPositiveNumber (getProp payload "size") then
    some "size must be a positive number"
  else
    match getProp payload "points" with
    | .arr pts =>
      if pts.length = 0 then some "points must not be empty"
      else if pts.length > MAX_POINTS then some "points exceeds max length (5000)"
      else if pts.all isNumPoint then none
      else some "each point must have numeric x and y"
    | _ => some "points must be an array"

/-- The canonical sanitised stroke shape produced by sanitiseStroke:
id, type, tool, color, size, points copied from the payload, an optional
truncated text, and the server-resolved author userId. -/
structure SanStroke where
  id : JsVal
  typeField : String
  tool : JsVal
  color : JsVal
  size : JsVal
  points : JsVal
  text : Option String
  userId : String

/-- sanitiseStroke from boardHandlers.js: keeps only the canonical keys,
includes text (sliced to 1000) only when tool === text and text is a
string, and attaches the server-resolved author id. -/
def sanitiseStroke (payload : JsVal) (userId : String) : SanStroke :=
  { id := getProp payload "id"
    typeField := "stroke"
    tool := getProp payload "tool"
    color := getProp payload "color"
    size := getProp payload "size"
    points := getProp payload "points"
    text :=
      match getProp payload "tool", getProp payload "text" with
      | .str "text", .str t => some (jsSlice t 1000)
      | _, _ => none
    userId := userId }

/-- Own enumerable fields contributed by spreading a value into an object
literal.  Spreading a non-object contributes no field read by these
handlers (a spread string contributes only numeric-index keys). -/
def spreadFields : JsVal → List (String × JsVal)
  | .obj fields => fields
  | _ => []

/-- The erase normalisation spread-payload-then-tool-eraser: the resulting
object has every field of the payload except that tool is eraser (a later
literal key overwrites a spread one). -/
def eraseNormalise (payload : JsVal) : JsVal :=
  .obj ((spreadFields payload).filter (fun kv => kv.1 ≠ "tool") ++ [("tool", .str "eraser")])

/-- The identity a connection was authenticated as (socket.data.user). -/
structure UserT where
  id : String
  name : String

/-- One live connection: socket id, authenticated user, and the
socket.data session fields set by join_room, plus the screen-share flag. -/
structure Conn where
  sid : String
  user : UserT
  roomKey : Option String := none
  roomId : Option String := none
  role : Option String := none
  isSharing : Bool := false

/-- Where one emit is routed: socket.emit (the sender only),
socket.to(key).emit (members of key except the sender), or
namespace.to(key).emit (all members of key). -/
inductive Target where
  | sender (sid : String)
  | roomExcept (key : String) (sid : String)
  | room (key : String)

/-- Socket.io room membership: every socket is in the room named by its
own id and in the room key it has joined. -/
def inRoomB (c : Conn) (key : String) : Bool :=
  c.sid == key || c.roomKey == some key

/-- Whether connection c receives an emit routed at the given target. -/
def receivesB (c : Conn) : Target → Bool
  | .sender s => c.sid == s
  | .roomExcept key s => inRoomB c key && c.sid != s
  | .room key => inRoomB c key

/-- A chat message as broadcast / delivered in history. -/
structure ChatOut where
  userId : String
  userName : String
  text : String
  sentAt : Nat

/-- A presence entry as produced by buildPresenceList. -/
structure PUser where
  id : String
  name : String

/-- The payload of an outbound server event, one constructor per event of
the outbound catalogue these handlers emit. -/
inductive EventBody where
  | drawE (stroke : SanStroke)
  | eraseE (stroke : SanStroke)
  | boardError (event : String) (code : Option String) (message : String)
  | clearBoardE (clearedById clearedByName : String) (clearedAt : Nat)
  | undoE (userId : String)
  | redoE (userId : String)
  | roomJoined (roomId : String) (userId : String) (onlineCount : Nat) (role : Option String)
  | chatHistory (msgs : List ChatOut)
  | presenceSnapshot (users : List PUser)
  | canvasRestore (strokes : List SanStroke)
  | userJoined (u : PUser) (onlineUsers : List PUser)
  | userLeft (userId name : String) (onlineUsers : List PUser)
  | chatMessage (userId userName text : String) (sentAt : Nat)
  | roomError (message : String)
  | cursorMove (userId name : String) (x y : JsVal)
  | screenAvailable (hostSocketId hostId hostName : String)
  | screenStopped (hostSocketId : String)
  | screenRequest (fromSid : String)
  | screenOffer (fromSid : String) (sdp : String)
  | screenAnswer (fromSid : String) (sdp : String)
  | screenIce (fromSid : String) (candidate : JsVal)

/-- One emitted event: its routing target and its body. -/
abbrev Emit : Type := Target × EventBody

/-- A persisted Stroke document: roomId (uppercased by the schema setter)
and the sanitised stroke.  The store list is kept in createdAt order. -/
structure StrokeRecord where
  roomId : Option String
  stroke : SanStroke

/-- A persisted Message document.  sentAt is the server-assigned
timestamp; the store list is kept in creation order. -/
structure MsgRecord where
  roomId : String
  userId : String
  userName : String
  text : String
  sentAt : Nat

/-- The side effects of one handler invocation: documents created,
rooms whose strokes were bulk-deleted, and events emitted. -/
structure Effects where
  strokeCreates : List StrokeRecord := []
  strokeClears : List String := []
  msgCreates : List MsgRecord := []
  emits : List Emit := []

/-- Stroke.clearForRoom: deleteMany of every stroke whose roomId equals
the uppercased argument. -/
def clearForRoom (store : List StrokeRecord) (roomId : String) : List StrokeRecord :=
  store.filter (fun r => r.roomId != some roomId.toUpper)

/-- Stroke.forRoom: all strokes of the room in createdAt ascending order
(the store list is in creation order, so the sorted find is a filter). -/
def strokesForRoom (store : List StrokeRecord) (roomId : String) : List StrokeRecord :=
  store.filter (fun r => r.roomId == some roomId.toUpper)

/-- Applying the stroke-store effects of a handler: the requested
clearForRoom deletions, then the created documents appended. -/
def applyStrokeEffects (store : List StrokeRecord) (e : Effects) : List StrokeRecord :=
  e.strokeClears.foldl clearForRoom store ++ e.strokeCreates

/-- The draw handler from boardHandlers.js. -/
def handleDraw (c : Conn) (payload : JsVal) : Effects :=
  match c.roomKey with
  | none => {}
  | some roomKey =>
    match validateStroke payload with
    | some err => { emits := [(.sender c.sid, .boardError "draw" none err)] }
    | none =>
      let stroke := sanitiseStroke payload c.user.id
      { strokeCreates := [{ roomId := c.roomId.map String.toUpper, stroke := stroke }]
        emits := [(.roomExcept roomKey c.sid, .drawE stroke)] }

/-- The erase handler from boardHandlers.js: same as draw with the tool
forced to eraser before validation, and the erase event name. -/
def handleErase (c : Conn) (payload : JsVal) : Effects :=
  match c.roomKey with
  | none => {}
  | some roomKey =>
    let normalised := eraseNormalise payload
    match validateStroke normalised with
    | some err => { emits := [(.sender c.sid, .boardError "erase" none err)] }
    | none =>
      let stroke := sanitiseStroke normalised c.user.id
      { strokeCreates := [{ roomId := c.roomId.map String.toUpper, stroke := stroke }]
        emits := [(.roomExcept roomKey c.sid, .eraseE stroke)] }

/-- The clear_board handler from boardHandlers.js: host-gated; on success
requests clearForRoom of the held roomId and broadcasts a clear notice to
the whole room including the sender. -/
def handleClearBoard (c : Conn) (now : Nat) : Effects :=
  match c.roomKey with
  | none => {}
  | some roomKey =>
    if c.role ≠ some "host" then
      { emits := [(.sender c.sid,
          .boardError "clear_board" (some "FORBIDDEN") "Only the host can clear the board")] }
    else
      { strokeClears := c.roomId.toList
        emits := [(.room roomKey, .clearBoardE c.user.id c.user.name now)] }

/-- The cursor:move handler from roomHandlers.js: when joined, relay the
coordinates with the sender identity to the rest of the room; nothing is
persisted and the coordinates are not inspected. -/
def handleCursorMove (c : Conn) (x y : JsVal) : Effects :=
  match c.roomKey with
  | none => {}
  | some roomKey =>
    { emits := [(.roomExcept roomKey c.sid, .cursorMove c.user.id c.user.name x y)] }

/-- One participants sub-document of a Room: the user reference (as its
string id) and the recorded role. -/
structure Participant where
  userId : String
  role : String

/-- The external Room document as read by join_room. -/
structure RoomRec where
  roomId : String
  participants : List Participant
  isActive : Bool

/-- Room.findOne of roomId together with isActive true: the single query
join_room issues, covering both an absent and a closed room at once. -/
def findActiveRoom (rooms : List RoomRec) (rid : String) : Option RoomRec :=
  rooms.find? (fun r => r.roomId == rid && r.isActive)

/-- Room.hasParticipant from models/Room.js. -/
def hasParticipant (r : RoomRec) (userId : String) : Bool :=
  r.participants.any (fun p => p.userId == userId)

/-- Room.getRole from models/Room.js: the recorded role, or none. -/
def getRole (r : RoomRec) (userId : String) : Option String :=
  (r.participants.find? (fun p => p.userId == userId)).map (fun p => p.role)

/-- The external state the handlers read: room documents, the stroke and
message stores (in creation order), and the live connections. -/
structure World where
  rooms : List RoomRec
  strokes : List StrokeRecord
  messages : List MsgRecord
  conns : List Conn

/-- The body of buildPresenceList's loop over the fetched sockets,
skipping users whose id was already seen. -/
def presenceLoop : List Conn → List String → List PUser
  | [], _ => []
  | s :: rest, seen =>
    if s.user.id ∈ seen then presenceLoop rest seen
    else { id := s.user.id, name := s.user.name } :: presenceLoop rest (s.user.id :: seen)

/-- The sockets fetchSockets returns for a room key: the live connections
that are members of that key. -/
def roomConns (conns : List Conn) (key : String) : List Conn :=
  conns.filter (fun c => inRoomB c key)

/-- buildPresenceList from roomHandlers.js: enumerate the live sockets of
the room and deduplicate by user id. -/
def buildPresenceList (conns : List Conn) (key : String) : List PUser :=
  presenceLoop (roomConns conns key) []

/-- The messages of one room, as Message.find of that roomId (the store
list already being in creation order). -/
def roomMessages (messages : List MsgRecord) (rid : String) : List MsgRecord :=
  messages.filter (fun m => m.roomId == rid)

/-- The sort comparator of the history query: sentAt descending. -/
def msgGe (a b : MsgRecord) : Prop := b.sentAt ≤ a.sentAt

instance : DecidableRel msgGe := fun a b => Nat.decLe b.sentAt a.sentAt

/-- The history query of join_room: Message.find of the room, sorted by
sentAt descending, limited to 50. -/
def historyQuery (messages : List MsgRecord) (rid : String) : List MsgRecord :=
  (List.insertionSort msgGe (roomMessages messages rid)).take 50

/-- The chat history as delivered to the joining socket: the query result
reversed back to oldest-first. -/
def deliveredHistory (messages : List MsgRecord) (rid : String) : List MsgRecord :=
  (historyQuery messages rid).reverse

/-- The fields of a message as emitted to clients. -/
def chatOut (m : MsgRecord) : ChatOut :=
  { userId := m.userId, userName := m.userName, text := m.text, sentAt := m.sentAt }

/-- The leaveRoom helper shared by leave_room, disconnect, and step 3 of
join_room: leave the socket.io room, recompute presence (now excluding
the departing socket), and notify the remaining members. -/
def leaveRoomStep (conns : List Conn) (c : Conn) (roomKey : String) : List Conn × List Emit :=
  let conns1 := conns.map (fun d => if d.sid == c.sid then { d with roomKey := none } else d)
  let onlineUsers := buildPresenceList conns1 roomKey
  (conns1, [(.roomExcept roomKey c.sid, .userLeft c.user.id c.user.name onlineUsers)])

/-- The join_room handler from roomHandlers.js.  Returns the updated live
connection list and the emitted events.  Failure paths leave the
connections untouched and emit a single room:error to the sender. -/
def handleJoinRoom (w : World) (c : Conn) (ridArg : Option String) : List Conn × List Emit :=
  let rid := ridArg.getD ""
  if rid = "" then
    (w.conns, [(.sender c.sid, .roomError "roomId is required")])
  else
    match findActiveRoom w.rooms rid with
    | none =>
      (w.conns, [(.sender c.sid, .roomError ("Room \"" ++ rid ++ "\" not found or closed"))])
    | some room =>
      if ¬ hasParticipant room c.user.id then
        (w.conns, [(.sender c.sid,
          .roomError "You must join the room via the API before connecting")])
      else
        let (conns1, leaveEmits) :=
          match c.roomKey with
          | some oldKey => leaveRoomStep w.conns c oldKey
          | none => (w.conns, [])
        let roomKey := "room:" ++ rid
        let role := getRole room c.user.id
        let cJoined := { c with roomKey := some roomKey, roomId := some rid, role := role }
        let conns2 := conns1.map (fun d => if d.sid == c.sid then cJoined else d)
        let onlineUsers := buildPresenceList conns2 roomKey
        let emits :=
          leaveEmits ++
          [(.sender c.sid, .roomJoined rid c.user.id onlineUsers.length role),
           (.sender c.sid, .chatHistory ((deliveredHistory w.messages rid).map chatOut)),
           (.sender c.sid, .presenceSnapshot onlineUsers),
           (.sender c.sid, .canvasRestore ((strokesForRoom w.strokes rid).map (fun s => s.stroke))),
           (.roomExcept roomKey c.sid, .userJoined { id := c.user.id, name := c.user.name } onlineUsers)]
        (conns2, emits)

/-- The JavaScript a-or-b fallback on strings: b when a is falsy. -/
def jsOrS (a b : String) : String :=
  if a = "" then b else a

/-- The send_message handler from roomHandlers.js: trim and truncate the
text, drop it when empty or when not joined, persist under the
client-supplied roomId (falling back to the joined room) uppercased, and
broadcast to the whole joined room including the sender. -/
def handleSendMessage (c : Conn) (ridArg : Option String) (textArg : Option String)
    (now : Nat) : Effects :=
  let trimmed := jsSlice (jsTrim (textArg.getD "")) 500
  if trimmed = "" then {}
  else
    match c.roomKey with
    | none => {}
    | some roomKey =>
      { msgCreates := [{ roomId := (jsOrS (ridArg.getD "") (jsOrS (c.roomId.getD "") "")).toUpper
                         userId := c.user.id
                         userName := c.user.name
                         text := trimmed
                         sentAt := now }]
        emits := [(.room roomKey, .chatMessage c.user.id c.user.name trimmed now)] }

/-- The screen:start handler: gated on holding a room; marks the socket
sharing and broadcasts availability to the rest of the room. -/
def handleScreenStart (c : Conn) : Conn × List Emit :=
  match c.roomKey with
  | none => (c, [])
  | some roomKey =>
    ({ c with isSharing := true },
     [(.roomExcept roomKey c.sid, .screenAvailable c.sid c.user.id c.user.name)])

/-- The screen:stop handler: gated on holding a room; clears the sharing
flag and broadcasts the stopped notice to the rest of the room. -/
def handleScreenStop (c : Conn) : Conn × List Emit :=
  match c.roomKey with
  | none => (c, [])
  | some roomKey =>
    ({ c with isSharing := false }, [(.roomExcept roomKey c.sid, .screenStopped c.sid)])

/-- The screen:request handler: dropped when hostSocketId is absent or
falsy, otherwise routed directly to that socket id with the requester's
socket id attached.  Not gated on room membership. -/
def handleScreenRequest (c : Conn) (hostSocketId : Option String) : List Emit :=
  match hostSocketId with
  | none => []
  | some h => if h = "" then [] else [(.room h, .screenRequest c.sid)]

/-- The screen:offer handler: dropped when to or sdp is absent or falsy,
otherwise routed directly to the to socket id with from rewritten to the
sender's socket id and the sdp passed through unchanged. -/
def handleScreenOffer (c : Conn) (toArg sdp : Option String) : List Emit :=
  match toArg, sdp with
  | some t, some s => if t = "" ∨ s = "" then [] else [(.room t, .screenOffer c.sid s)]
  | _, _ => []

/-- The screen:answer handler: same guard and routing as screen:offer. -/
def handleScreenAnswer (c : Conn) (toArg sdp : Option String) : List Emit :=
  match toArg, sdp with
  | some t, some s => if t = "" ∨ s = "" then [] else [(.room t, .screenAnswer c.sid s)]
  | _, _ => []

/-- The screen:ice handler: dropped when to is absent or falsy or when
the candidate is strictly undefined; any other candidate value is routed
unchanged to the to socket id with from rewritten. -/
def handleScreenIce (c : Conn) (toArg : Option String) (candidate : JsVal) : List Emit :=
  match toArg with
  | none => []
  | some t =>
    if t = "" then []
    else
      match candidate with
      | .undefV => []
      | cand => [(.room t, .screenIce c.sid cand)]

/-- Recogniser for chat:history emits, used to isolate the history event
among the join-time emits. -/
def isChatHistory : EventBody → Bool
  | .chatHistory _ => true
  | _ => false

/-- A concrete joined host connection, used to evaluate the handlers. -/
def hostConn : Conn :=
  { sid := "sock1"
    user := { id := "U1", name := "Ann" }
    roomKey := some "room:AB12CD"
    roomId := some "AB12CD"
    role := some "host" }

/-- A concrete joined non-host connection. -/
def guestConn : Conn :=
  { sid := "sock2"
    user := { id := "U2", name := "Bob" }
    roomKey := some "room:AB12CD"
    roomId := some "AB12CD"
    role := some "participant" }

/-- A concrete authenticated connection that has not joined any room. -/
def lobbyConn : Conn :=
  { sid := "sock3", user := { id := "U3", name := "Cyn" } }

/-- A concrete stroke payload satisfying every validation rule. -/
def validPayload : JsVal :=
  .obj [("id", .str "s1"), ("tool", .str "pen"), ("color", .str "#000"),
        ("size", .num 4),
        ("points", .arr [.obj [("x", .num 0), ("y", .num 0)],
                         .obj [("x", .num 1), ("y", .num 1)]])]

/-- A concrete stroke payload with a non-positive size. -/
def badSizePayload : JsVal :=
  .obj [("id", .str "s2"), ("tool", .str "pen"), ("color", .str "#000"),
        ("size", .num 0),
        ("points", .arr [.obj [("x", .num 0), ("y", .num 0)]])]

/-- A concrete stroke payload with an empty points array. -/
def emptyPointsPayload : JsVal :=
  .obj [("id", .str "s3"), ("tool", .str "pen"), ("color", .str "#000"),
        ("size", .num 2), ("points", .arr [])]

/-- A world whose external store has no room at all. -/
def absentRoomWorld : World :=
  { rooms := [], strokes := [], messages := [], conns := [lobbyConn] }

/-- A world whose external store has room AB12CD recorded but inactive
(closed), with U3 among its participants. -/
def closedRoomWorld : World :=
  { rooms := [{ roomId := "AB12CD"
                participants := [{ userId := "U3", role := "host" }]
                isActive := false }]
    strokes := [], messages := [], conns := [lobbyConn] }

/-- A world whose room AB12CD is active but does not record U3 as a
participant. -/
def foreignRoomWorld : World :=
  { rooms := [{ roomId := "AB12CD"
                participants := [{ userId := "U1", role := "host" }]
                isActive := true }]
    strokes := [], messages := [], conns := [lobbyConn] }

/-- 52 persisted messages for room AB12CD with increasing timestamps,
more than the history limit of 50. -/
def manyMessages : List MsgRecord :=
  (List.range 52).map (fun i =>
    { roomId := "AB12CD", userId := "U1", userName := "Ann", text := "m", sentAt := i })

/-- A world whose room AB12CD is active, records U3, and has 52 persisted
messages. -/
def chattyWorld : World :=
  { rooms := [{ roomId := "AB12CD"
                participants := [{ userId := "U3", role := "participant" }]
                isActive := true }]
    strokes := [], messages := manyMessages, conns := [lobbyConn] }

/-- Three live connections with pairwise distinct user ids, all joined to
room AB12CD. -/
def threeConns : List Conn :=
  [hostConn, guestConn,
   { sid := "sock4"
     user := { id := "U4", name := "Dee" }
     roomKey := some "room:AB12CD"
     roomId := some "AB12CD"
     role := some "participant" }]

/-- Claim C1: for every draw or erase from a joined connection whose
payload passes stroke validation, the server persists exactly one stroke
record carrying the sanitised stroke with the server-resolved author id,
emits exactly one broadcast of that sanitised stroke routed to every
other member of the room's broadcast group, and emits nothing back to
the sending connection. -/
theorem draw_erase_valid_persist_and_broadcast
    (c : Conn) (key rid : String) (p q : JsVal) (store : List StrokeRecord)
    (hk : c.roomKey = some key) (hr : c.roomId = some rid)
    (hp : validateStroke p = none)
    (hq : validateStroke (eraseNormalise q) = none) :
    handleDraw c p =
      { strokeCreates := [{ roomId := some rid.toUpper, stroke := sanitiseStroke p c.user.id }]
        emits := [(Target.roomExcept key c.sid, EventBody.drawE (sanitiseStroke p c.user.id))] } ∧
    handleErase c q =
      { strokeCreates :=
          [{ roomId := some rid.toUpper, stroke := sanitiseStroke (eraseNormalise q) c.user.id }]
        emits := [(Target.roomExcept key c.sid,
          EventBody.eraseE (sanitiseStroke (eraseNormalise q) c.user.id))] } ∧
    (sanitiseStroke p c.user.id).userId = c.user.id ∧
    applyStrokeEffects store (handleDraw c p) =
      store ++ [{ roomId := some rid.toUpper, stroke := sanitiseStroke p c.user.id }] ∧
    (∀ d : Conn, receivesB d (Target.roomExcept key c.sid) = (inRoomB d key && d.sid != c.sid)) ∧
    receivesB c (Target.roomExcept key c.sid) = false := by
  have hd : handleDraw c p =
      { strokeCreates := [{ roomId := some rid.toUpper, stroke := sanitiseStroke p c.user.id }]
        emits := [(Target.roomExcept key c.sid, EventBody.drawE (sanitiseStroke p c.user.id))] } := by
    simp [handleDraw, hk, hp, hr]
  refine ⟨hd, ?_, rfl, ?_, fun d => rfl, ?_⟩
  · simp [handleErase, hk, hq, hr]
  · rw [hd]; simp [applyStrokeEffects]
  · simp [receivesB]

/-- Witness for claim C1 at a concrete joined connection and payload. -/
theorem draw_erase_valid_persist_and_broadcast_witness :
    hostConn.roomKey = some "room:AB12CD" ∧ hostConn.roomId = some "AB12CD" ∧
    validateStroke validPayload = none ∧
    validateStroke (eraseNormalise validPayload) = none ∧
    (handleDraw hostConn validPayload =
      { strokeCreates :=
          [{ roomId := some "AB12CD".toUpper, stroke := sanitiseStroke validPayload hostConn.user.id }]
        emits := [(Target.roomExcept "room:AB12CD" hostConn.sid,
          EventBody.drawE (sanitiseStroke validPayload hostConn.user.id))] } ∧
    handleErase hostConn validPayload =
      { strokeCreates :=
          [{ roomId := some "AB12CD".toUpper,
             stroke := sanitiseStroke (eraseNormalise validPayload) hostConn.user.id }]
        emits := [(Target.roomExcept "room:AB12CD" hostConn.sid,
          EventBody.eraseE (sanitiseStroke (eraseNormalise validPayload) hostConn.user.id))] } ∧
    (sanitiseStroke validPayload hostConn.user.id).userId = hostConn.user.id ∧
    applyStrokeEffects [] (handleDraw hostConn validPayload) =
      [] ++ [{ roomId := some "AB12CD".toUpper,
               stroke := sanitiseStroke validPayload hostConn.user.id }] ∧
    (∀ d : Conn, receivesB d (Target.roomExcept "room:AB12CD" hostConn.sid) =
      (inRoomB d "room:AB12CD" && d.sid != hostConn.sid)) ∧
    receivesB hostConn (Target.roomExcept "room:AB12CD" hostConn.sid) = false) :=
  ⟨rfl, rfl, rfl, rfl,
   draw_erase_valid_persist_and_broadcast hostConn "room:AB12CD" "AB12CD"
     validPayload validPayload [] rfl rfl rfl rfl⟩

/-- Claim C2: for every draw or erase from a joined connection whose
payload fails a validation rule, nothing is persisted, nothing is
broadcast to any other connection, and the only effect is a single
board:error carrying that rule's message, routed to the sender alone. -/
theorem draw_erase_invalid_only_sender_error
    (c : Conn) (key : String) (p q : JsVal) (ed ee : String)
    (hk : c.roomKey = some key)
    (hp : validateStroke p = some ed)
    (hq : validateStroke (eraseNormalise q) = some ee) :
    handleDraw c p = { emits := [(Target.sender c.sid, EventBody.boardError "draw" none ed)] } ∧
    handleErase c q = { emits := [(Target.sender c.sid, EventBody.boardError "erase" none ee)] } ∧
    (handleDraw c p).strokeCreates = [] ∧
    (handleErase c q).strokeCreates = [] ∧
    (∀ store, applyStrokeEffects store (handleDraw c p) = store) ∧
    (∀ d : Conn, receivesB d (Target.sender c.sid) = (d.sid == c.sid)) := by
  have hd : handleDraw c p =
      { emits := [(Target.sender c.sid, EventBody.boardError "draw" none ed)] } := by
    simp [handleDraw, hk, hp]
  have he : handleErase c q =
      { emits := [(Target.sender c.sid, EventBody.boardError "erase" none ee)] } := by
    simp [handleErase, hk, hq]
  refine ⟨hd, he, by rw [hd], by rw [he], ?_, fun d => rfl⟩
  intro store
  rw [hd]
  simp [applyStrokeEffects]

/-- Witness for claim C2 at a concrete non-positive size (draw) and a
concrete empty points array (erase). -/
theorem draw_erase_invalid_only_sender_error_witness :
    hostConn.roomKey = some "room:AB12CD" ∧
    validateStroke badSizePayload = some "size must be a positive number" ∧
    validateStroke (eraseNormalise emptyPointsPayload) = some "points must not be empty" ∧
    (handleDraw hostConn badSizePayload =
      { emits := [(Target.sender hostConn.sid,
          EventBody.boardError "draw" none "size must be a positive number")] } ∧
    handleErase hostConn emptyPointsPayload =
      { emits := [(Target.sender hostConn.sid,
          EventBody.boardError "erase" none "points must not be empty")] } ∧
    (handleDraw hostConn badSizePayload).strokeCreates = [] ∧
    (handleErase hostConn emptyPointsPayload).strokeCreates = [] ∧
    (∀ store, applyStrokeEffects store (handleDraw hostConn badSizePayload) = store) ∧
    (∀ d : Conn, receivesB d (Target.sender hostConn.sid) = (d.sid == hostConn.sid))) :=
  ⟨rfl, rfl, rfl,
   draw_erase_invalid_only_sender_error hostConn "room:AB12CD" badSizePayload
     emptyPointsPayload "size must be a positive number" "points must not be empty"
     rfl rfl rfl⟩

/-- Claim C3: clear_board from a joined connection is host-gated.  A
non-host sender gets exactly one FORBIDDEN board:error routed to itself,
with no deletion and no broadcast; a host sender causes every persisted
stroke record of the room to be deleted (records of other rooms kept)
and exactly one clear notice, carrying who cleared and when, broadcast
to every member of the room including the sender. -/
theorem clear_board_host_gated
    (c : Conn) (key rid : String) (now : Nat) (store : List StrokeRecord)
    (hk : c.roomKey = some key) (hr : c.roomId = some rid) :
    (c.role ≠ some "host" →
      handleClearBoard c now =
        { emits := [(Target.sender c.sid,
            EventBody.boardError "clear_board" (some "FORBIDDEN")
              "Only the host can clear the board")] } ∧
      applyStrokeEffects store (handleClearBoard c now) = store ∧
      (∀ d : Conn, receivesB d (Target.sender c.sid) = (d.sid == c.sid))) ∧
    (c.role = some "host" →
      handleClearBoard c now =
        { strokeClears := [rid]
          emits := [(Target.room key, EventBody.clearBoardE c.user.id c.user.name now)] } ∧
      applyStrokeEffects store (handleClearBoard c now) = clearForRoom store rid ∧
      (∀ r ∈ clearForRoom store rid, r.roomId ≠ some rid.toUpper) ∧
      (∀ r ∈ store, r.roomId ≠ some rid.toUpper → r ∈ clearForRoom store rid) ∧
      receivesB c (Target.room key) = true ∧
      (∀ d : Conn, receivesB d (Target.room key) = inRoomB d key)) := by
  constructor
  · intro hrole
    have hcb : handleClearBoard c now =
        { emits := [(Target.sender c.sid,
            EventBody.boardError "clear_board" (some "FORBIDDEN")
              "Only the host can clear the board")] } := by
      simp [handleClearBoard, hk, hrole]
    exact ⟨hcb, by rw [hcb]; simp [applyStrokeEffects], fun d => rfl⟩
  · intro hrole
    have hcb : handleClearBoard c now =
        { strokeClears := [rid]
          emits := [(Target.room key, EventBody.clearBoardE c.user.id c.user.name now)] } := by
      simp [handleClearBoard, hk, hr, hrole]
    refine ⟨hcb, by rw [hcb]; simp [applyStrokeEffects], ?_, ?_, ?_, fun d => rfl⟩
    · intro r hrmem
      have := List.of_mem_filter hrmem
      simpa using this
    · intro r hrmem hne
      refine List.mem_filter.mpr ⟨hrmem, ?_⟩
      simpa using hne
    · simp [receivesB, inRoomB, hk]

/-- Witness for claim C3: the non-host branch at the guest connection and
the host branch at the host connection, over a concrete store holding one
stroke of room AB12CD and one of room ZZ99ZZ. -/
theorem clear_board_host_gated_witness :
    guestConn.roomKey = some "room:AB12CD" ∧ guestConn.roomId = some "AB12CD" ∧
    hostConn.roomKey = some "room:AB12CD" ∧ hostConn.roomId = some "AB12CD" ∧
    guestConn.role ≠ some "host" ∧ hostConn.role = some "host" ∧
    (handleClearBoard guestConn 7 =
      { emits := [(Target.sender guestConn.sid,
          EventBody.boardError "clear_board" (some "FORBIDDEN")
            "Only the host can clear the board")] } ∧
     applyStrokeEffects
       [{ roomId := some "AB12CD", stroke := sanitiseStroke validPayload "U1" },
        { roomId := some "ZZ99ZZ", stroke := sanitiseStroke validPayload "U1" }]
       (handleClearBoard guestConn 7) =
       [{ roomId := some "AB12CD", stroke := sanitiseStroke validPayload "U1" },
        { roomId := some "ZZ99ZZ", stroke := sanitiseStroke validPayload "U1" }] ∧
     (∀ d : Conn, receivesB d (Target.sender guestConn.sid) = (d.sid == guestConn.sid))) ∧
    (handleClearBoard hostConn 7 =
      { strokeClears := ["AB12CD"]
        emits := [(Target.room "room:AB12CD",
          EventBody.clearBoardE hostConn.user.id hostConn.user.name 7)] } ∧
     applyStrokeEffects
       [{ roomId := some "AB12CD", stroke := sanitiseStroke validPayload "U1" },
        { roomId := some "ZZ99ZZ", stroke := sanitiseStroke validPayload "U1" }]
       (handleClearBoard hostConn 7) =
       clearForRoom
         [{ roomId := some "AB12CD", stroke := sanitiseStroke validPayload "U1" },
          { roomId := some "ZZ99ZZ", stroke := sanitiseStroke validPayload "U1" }] "AB12CD" ∧
     (∀ r ∈ clearForRoom
         [{ roomId := some "AB12CD", stroke := sanitiseStroke validPayload "U1" },
          { roomId := some "ZZ99ZZ", stroke := sanitiseStroke validPayload "U1" }] "AB12CD",
        r.roomId ≠ some "AB12CD".toUpper) ∧
     (∀ r ∈ [{ roomId := some "AB12CD", stroke := sanitiseStroke validPayload "U1" },
             { roomId := some "ZZ99ZZ", stroke := sanitiseStroke validPayload "U1" }],
        r.roomId ≠ some "AB12CD".toUpper →
        r ∈ clearForRoom
          [{ roomId := some "AB12CD", stroke := sanitiseStroke validPayload "U1" },
           { roomId := some "ZZ99ZZ", stroke := sanitiseStroke validPayload "U1" }] "AB12CD") ∧
     receivesB hostConn (Target.room "room:AB12CD") = true ∧
     (∀ d : Conn, receivesB d (Target.room "room:AB12CD") = inRoomB d "room:AB12CD")) := by
  refine ⟨rfl, rfl, rfl, rfl, by decide, rfl, ?_, ?_⟩
  · exact (clear_board_host_gated guestConn "room:AB12CD" "AB12CD" 7
      [{ roomId := some "AB12CD", stroke := sanitiseStroke validPayload "U1" },
       { roomId := some "ZZ99ZZ", stroke := sanitiseStroke validPayload "U1" }]
      rfl rfl).1 (by decide)
  · exact (clear_board_host_gated hostConn "room:AB12CD" "AB12CD" 7
      [{ roomId := some "AB12CD", stroke := sanitiseStroke validPayload "U1" },
       { roomId := some "ZZ99ZZ", stroke := sanitiseStroke validPayload "U1" }]
      rfl rfl).2 rfl

/-- Counterexample to claim C4: join_room does not distinguish a missing
room from a closed one.  With room AB12CD entirely absent, and with room
AB12CD recorded but inactive (and the caller among its participants), the
handler emits the identical single room:error event, so no distinct
Closed error exists. -/
theorem join_room_closed_not_distinct_counterexample :
    (handleJoinRoom absentRoomWorld lobbyConn (some "AB12CD")).2 =
      [(Target.sender "sock3",
        EventBody.roomError "Room \"AB12CD\" not found or closed")] ∧
    (handleJoinRoom closedRoomWorld lobbyConn (some "AB12CD")).2 =
      (handleJoinRoom absentRoomWorld lobbyConn (some "AB12CD")).2 :=
  ⟨rfl, rfl⟩

/-- Claim C4 as amended: a join request failing the room lookup — whether
the room is absent or recorded but inactive, the single combined query
does not distinguish the two — fails with one combined
not-found-or-closed error, and a join to an active room whose
participants do not record the caller fails with the distinct
join-via-API (Forbidden) error; in every failure case exactly one
room:error is emitted to the requester, the live connection list is
unchanged, and the requester is joined to no broadcast group. -/
theorem join_room_failure_modes
    (w : World) (c : Conn) (rid : String) (hrid : rid ≠ "") :
    ((∀ r ∈ w.rooms, r.roomId = rid → r.isActive = false) →
      findActiveRoom w.rooms rid = none) ∧
    (findActiveRoom w.rooms rid = none →
      handleJoinRoom w c (some rid) =
        (w.conns, [(Target.sender c.sid,
          EventBody.roomError ("Room \"" ++ rid ++ "\" not found or closed"))])) ∧
    (∀ room, findActiveRoom w.rooms rid = some room →
      hasParticipant room c.user.id = false →
      handleJoinRoom w c (some rid) =
        (w.conns, [(Target.sender c.sid,
          EventBody.roomError "You must join the room via the API before connecting")])) ∧
    (∀ d : Conn, receivesB d (Target.sender c.sid) = (d.sid == c.sid)) := by
  refine ⟨?_, ?_, ?_, fun d => rfl⟩
  · intro h
    rw [findActiveRoom, List.find?_eq_none]
    intro r hrm
    by_cases hid : r.roomId = rid
    · simp [hid, h r hrm hid]
    · simp [hid]
  · intro hfind
    simp [handleJoinRoom, hrid, hfind]
  · intro room hfind hpart
    simp [handleJoinRoom, hrid, hfind, hpart]

/-- Witness for the amended claim C4 at the closed-room world (combined
error) and the foreign-room world (Forbidden error). -/
theorem join_room_failure_modes_witness :
    ("AB12CD" ≠ "") ∧
    (handleJoinRoom closedRoomWorld lobbyConn (some "AB12CD") =
      (closedRoomWorld.conns, [(Target.sender lobbyConn.sid,
        EventBody.roomError ("Room \"" ++ "AB12CD" ++ "\" not found or closed"))])) ∧
    (handleJoinRoom foreignRoomWorld lobbyConn (some "AB12CD") =
      (foreignRoomWorld.conns, [(Target.sender lobbyConn.sid,
        EventBody.roomError "You must join the room via the API before connecting")])) := by
  refine ⟨by decide, ?_, ?_⟩
  · exact (join_room_failure_modes closedRoomWorld lobbyConn "AB12CD" (by decide)).2.1 rfl
  · exact (join_room_failure_modes foreignRoomWorld lobbyConn "AB12CD"
      (by decide)).2.2.1 _ rfl rfl

/-- Inserting a message strictly newer than everything in the list into a
descending-sorted list places it at the end. -/
theorem orderedInsert_append_last (a : MsgRecord) (l : List MsgRecord)
    (h : ∀ b ∈ l, ¬ msgGe a b) :
    List.orderedInsert msgGe a l = l ++ [a] := by
  induction l with
  | nil => rfl
  | cons b t ih =>
    have hb : ¬ msgGe a b := h b (List.mem_cons_self b t)
    simp only [List.orderedInsert, if_neg hb, List.cons_append]
    rw [ih (fun x hx => h x (List.mem_cons_of_mem b hx))]

/-- Sorting a strictly chronological message list by sentAt descending
reverses it. -/
theorem insertionSort_desc_of_strictSorted (l : List MsgRecord)
    (h : l.Sorted (fun a b => a.sentAt < b.sentAt)) :
    List.insertionSort msgGe l = l.reverse := by
  induction l with
  | nil => rfl
  | cons a t ih =>
    rw [List.insertionSort, ih h.of_cons, orderedInsert_append_last, List.reverse_cons]
    intro b hb
    have hlt : a.sentAt < b.sentAt :=
      (List.sorted_cons.mp h).1 b (List.mem_reverse.mp hb)
    intro hge
    have hge2 : b.sentAt ≤ a.sentAt := hge
    exact absurd hlt (not_lt.mpr hge2)

/-- Claim C5: on every successful join, the delivered chat history is the
room's persisted messages sorted newest-first, limited to 50, and
reversed back to oldest-first — so, when the room's stored messages are
in strictly chronological order, the joining connection receives exactly
the at-most-50 most recent messages, oldest-first, even when more than
50 exist. -/
theorem chat_history_most_recent_50
    (w : World) (c : Conn) (rid : String) (room : RoomRec)
    (hrid : rid ≠ "")
    (hfind : findActiveRoom w.rooms rid = some room)
    (hpart : hasParticipant room c.user.id = true)
    (hsorted : (roomMessages w.messages rid).Sorted (fun a b => a.sentAt < b.sentAt)) :
    ((handleJoinRoom w c (some rid)).2.filter (fun e => isChatHistory e.2)) =
      [(Target.sender c.sid,
        EventBody.chatHistory ((deliveredHistory w.messages rid).map chatOut))] ∧
    (deliveredHistory w.messages rid).length ≤ 50 ∧
    deliveredHistory w.messages rid =
      (roomMessages w.messages rid).drop ((roomMessages w.messages rid).length - 50) := by
  refine ⟨?_, ?_, ?_⟩
  · cases hck : c.roomKey with
    | none => simp [handleJoinRoom, hrid, hfind, hpart, hck, isChatHistory]
    | some oldKey =>
      simp [handleJoinRoom, hrid, hfind, hpart, hck, leaveRoomStep, isChatHistory]
  · rw [deliveredHistory, List.length_reverse, historyQuery]
    exact List.length_take_le 50 _
  · rw [deliveredHistory, historyQuery, insertionSort_desc_of_strictSorted _ hsorted]
    calc ((roomMessages w.messages rid).reverse.take 50).reverse
        = (roomMessages w.messages rid).rtake 50 :=
          (List.rtake_eq_reverse_take_reverse _ 50).symm
      _ = (roomMessages w.messages rid).drop ((roomMessages w.messages rid).length - 50) := rfl

/-- Witness for claim C5 at a 52-message room: the delivered history is
the last 50 messages in chronological order. -/
theorem chat_history_most_recent_50_witness :
    ("AB12CD" ≠ "") ∧
    findActiveRoom chattyWorld.rooms "AB12CD" =
      some { roomId := "AB12CD"
             participants := [{ userId := "U3", role := "participant" }]
             isActive := true } ∧
    hasParticipant
      { roomId := "AB12CD"
        participants := [{ userId := "U3", role := "participant" }]
        isActive := true } lobbyConn.user.id = true ∧
    (roomMessages chattyWorld.messages "AB12CD").Sorted (fun a b => a.sentAt < b.sentAt) ∧
    (((handleJoinRoom chattyWorld lobbyConn (some "AB12CD")).2.filter
        (fun e => isChatHistory e.2)) =
      [(Target.sender lobbyConn.sid,
        EventBody.chatHistory ((deliveredHistory chattyWorld.messages "AB12CD").map chatOut))] ∧
    (deliveredHistory chattyWorld.messages "AB12CD").length ≤ 50 ∧
    deliveredHistory chattyWorld.messages "AB12CD" =
      (roomMessages chattyWorld.messages "AB12CD").drop
        ((roomMessages chattyWorld.messages "AB12CD").length - 50)) :=
  ⟨by decide, rfl, rfl, by decide,
   chat_history_most_recent_50 chattyWorld lobbyConn "AB12CD"
     { roomId := "AB12CD"
       participants := [{ userId := "U3", role := "participant" }]
       isActive := true }
     (by decide) rfl rfl (by decide)⟩

/-- Claim C6: screen:offer, screen:answer and screen:ice envelopes that
carry a target socket id and a payload — formalised as the handlers'
presence test: a non-empty to, a non-empty sdp for offer/answer, and a
candidate that is not undefined for ice — are routed as exactly one emit
to the room named by the target socket id, which reaches only the
connection whose socket id that is (no other connection having joined a
room of that name), with from rewritten to the sender's socket id and
the payload passed through unchanged; envelopes whose target id or
payload is missing produce no emit and no error for anyone. -/
theorem screen_signal_routed_to_target_only
    (c : Conn) (t s : String) (cand : JsVal)
    (ht : t ≠ "") (hs : s ≠ "") (hcand : cand ≠ JsVal.undefV) :
    handleScreenOffer c (some t) (some s) =
      [(Target.room t, EventBody.screenOffer c.sid s)] ∧
    handleScreenAnswer c (some t) (some s) =
      [(Target.room t, EventBody.screenAnswer c.sid s)] ∧
    handleScreenIce c (some t) cand = [(Target.room t, EventBody.screenIce c.sid cand)] ∧
    (∀ d : Conn, d.roomKey ≠ some t → (receivesB d (Target.room t) = true ↔ d.sid = t)) ∧
    (∀ sdp, handleScreenOffer c none sdp = []) ∧
    (∀ toA, handleScreenOffer c toA none = []) ∧
    (∀ sdp, handleScreenAnswer c none sdp = []) ∧
    (∀ toA, handleScreenAnswer c toA none = []) ∧
    (∀ cnd, handleScreenIce c none cnd = []) ∧
    (∀ toA, handleScreenIce c toA JsVal.undefV = []) := by
  refine ⟨?_, ?_, ?_, ?_, ?_, ?_, ?_, ?_, ?_, ?_⟩
  · simp [handleScreenOffer, ht, hs]
  · simp [handleScreenAnswer, ht, hs]
  · cases cand <;> simp_all [handleScreenIce, ht]
  · intro d hdk
    simp [receivesB, inRoomB, beq_iff_eq, hdk]
  · intro sdp; cases sdp <;> rfl
  · intro toA; cases toA <;> rfl
  · intro sdp; cases sdp <;> rfl
  · intro toA; cases toA <;> rfl
  · intro cnd; rfl
  · intro toA
    cases toA with
    | none => rfl
    | some t2 => by_cases h2 : t2 = "" <;> simp [handleScreenIce, h2]

/-- Witness for claim C6 at concrete target, sdp and candidate values. -/
theorem screen_signal_routed_to_target_only_witness :
    (("sock1" : String) ≠ "" ∧ ("sdp-blob" : String) ≠ "" ∧
      JsVal.str "cand" ≠ JsVal.undefV) ∧
    (handleScreenOffer guestConn (some "sock1") (some "sdp-blob") =
      [(Target.room "sock1", EventBody.screenOffer guestConn.sid "sdp-blob")] ∧
    handleScreenAnswer guestConn (some "sock1") (some "sdp-blob") =
      [(Target.room "sock1", EventBody.screenAnswer guestConn.sid "sdp-blob")] ∧
    handleScreenIce guestConn (some "sock1") (JsVal.str "cand") =
      [(Target.room "sock1", EventBody.screenIce guestConn.sid (JsVal.str "cand"))] ∧
    (∀ d : Conn, d.roomKey ≠ some "sock1" →
      (receivesB d (Target.room "sock1") = true ↔ d.sid = "sock1")) ∧
    (∀ sdp, handleScreenOffer guestConn none sdp = []) ∧
    (∀ toA, handleScreenOffer guestConn toA none = []) ∧
    (∀ sdp, handleScreenAnswer guestConn none sdp = []) ∧
    (∀ toA, handleScreenAnswer guestConn toA none = []) ∧
    (∀ cnd, handleScreenIce guestConn none cnd = []) ∧
    (∀ toA, handleScreenIce guestConn toA JsVal.undefV = [])) :=
  ⟨⟨by decide, by decide, fun h => JsVal.noConfusion h⟩,
   screen_signal_routed_to_target_only guestConn "sock1" "sdp-blob" (JsVal.str "cand")
     (by decide) (by decide) (fun h => JsVal.noConfusion h)⟩

/-- The presence loop maps each socket to its user entry when the ids of
the enumerated sockets are pairwise distinct and unseen. -/
theorem presenceLoop_eq_map (l : List Conn) :
    ∀ seen : List String, (∀ x ∈ l, x.user.id ∉ seen) →
    (l.map (fun x => x.user.id)).Nodup →
    presenceLoop l seen = l.map (fun x => PUser.mk x.user.id x.user.name) := by
  induction l with
  | nil => intro seen _ _; rfl
  | cons a t ih =>
    intro seen hseen hnd
    have ha : a.user.id ∉ seen := hseen a (List.mem_cons_self a t)
    have hhead : a.user.id ∉ t.map (fun x => x.user.id) := (List.nodup_cons.mp hnd).1
    have htail : (t.map (fun x => x.user.id)).Nodup := (List.nodup_cons.mp hnd).2
    simp only [presenceLoop, if_neg ha, List.map_cons]
    rw [ih (a.user.id :: seen) ?_ htail]
    intro x hx
    simp only [List.mem_cons, not_or]
    exact ⟨fun h => hhead (h ▸ List.mem_map_of_mem (fun y => y.user.id) hx),
           hseen x (List.mem_cons_of_mem a hx)⟩

/-- Claim C7: the presence snapshot is computed by enumerating the live
connections of the room's broadcast group and deduplicating by user id;
when the members carry pairwise distinct identities, the snapshot is
exactly those identities, it has no duplicate ids, and permuting the
live-connection enumeration (any join order) only permutes the
snapshot. -/
theorem presence_snapshot_from_live_conns
    (conns : List Conn) (key : String)
    (hnd : ((roomConns conns key).map (fun x => x.user.id)).Nodup) :
    buildPresenceList conns key =
      (roomConns conns key).map (fun x => PUser.mk x.user.id x.user.name) ∧
    ((buildPresenceList conns key).map PUser.id).Nodup ∧
    (∀ conns2, conns.Perm conns2 →
      (buildPresenceList conns key).Perm (buildPresenceList conns2 key)) := by
  have h1 : buildPresenceList conns key =
      (roomConns conns key).map (fun x => PUser.mk x.user.id x.user.name) :=
    presenceLoop_eq_map _ [] (by simp) hnd
  refine ⟨h1, ?_, ?_⟩
  · rw [h1, List.map_map]
    exact hnd
  · intro conns2 hp
    have hf : (roomConns conns key).Perm (roomConns conns2 key) := hp.filter _
    have hnd2 : ((roomConns conns2 key).map (fun x => x.user.id)).Nodup :=
      (hf.map _).nodup hnd
    have h2 : buildPresenceList conns2 key =
        (roomConns conns2 key).map (fun x => PUser.mk x.user.id x.user.name) :=
      presenceLoop_eq_map _ [] (by simp) hnd2
    rw [h1, h2]
    exact hf.map _

/-- Witness for claim C7 at three distinct joined identities. -/
theorem presence_snapshot_from_live_conns_witness :
    ((roomConns threeConns "room:AB12CD").map (fun x => x.user.id)).Nodup ∧
    (buildPresenceList threeConns "room:AB12CD" =
      (roomConns threeConns "room:AB12CD").map (fun x => PUser.mk x.user.id x.user.name) ∧
    ((buildPresenceList threeConns "room:AB12CD").map PUser.id).Nodup ∧
    (∀ conns2, threeConns.Perm conns2 →
      (buildPresenceList threeConns "room:AB12CD").Perm
        (buildPresenceList conns2 "room:AB12CD"))) :=
  ⟨by decide, presence_snapshot_from_live_conns threeConns "room:AB12CD" (by decide)⟩

/-- Counterexample to claim C8: cursor:move performs no validation of the
coordinates.  A joined connection sending a string x is relayed to the
rest of the room all the same, where the claim requires non-numeric
coordinates not to be relayed. -/
theorem cursor_move_nonnumeric_relayed_counterexample :
    handleCursorMove hostConn (JsVal.str "oops") (JsVal.num 3) =
      { emits := [(Target.roomExcept "room:AB12CD" "sock1",
          EventBody.cursorMove "U1" "Ann" (JsVal.str "oops") (JsVal.num 3))] } ∧
    (handleCursorMove hostConn (JsVal.str "oops") (JsVal.num 3)).emits ≠ [] := by
  have h1 : handleCursorMove hostConn (JsVal.str "oops") (JsVal.num 3) =
      { emits := [(Target.roomExcept "room:AB12CD" "sock1",
          EventBody.cursorMove "U1" "Ann" (JsVal.str "oops") (JsVal.num 3))] } := rfl
  exact ⟨h1, by rw [h1]; simp⟩

/-- Claim C8 as amended: cursor_move is a pure relay with no validation
at all — whatever the coordinate values, numeric or not, the server
relays them unchanged together with the sender's identity to every other
connection in the room, persists nothing, and ignores the event when the
sender holds no room. -/
theorem cursor_move_pure_relay_no_validation
    (c : Conn) (key : String) (x y : JsVal) (hk : c.roomKey = some key) :
    handleCursorMove c x y =
      { emits := [(Target.roomExcept key c.sid,
          EventBody.cursorMove c.user.id c.user.name x y)] } ∧
    (handleCursorMove c x y).strokeCreates = [] ∧
    (handleCursorMove c x y).msgCreates = [] ∧
    (∀ d : Conn, receivesB d (Target.roomExcept key c.sid) = (inRoomB d key && d.sid != c.sid)) ∧
    receivesB c (Target.roomExcept key c.sid) = false ∧
    (∀ c2 : Conn, c2.roomKey = none → handleCursorMove c2 x y = {}) := by
  have h1 : handleCursorMove c x y =
      { emits := [(Target.roomExcept key c.sid,
          EventBody.cursorMove c.user.id c.user.name x y)] } := by
    simp [handleCursorMove, hk]
  refine ⟨h1, by rw [h1], by rw [h1], fun d => rfl, by simp [receivesB], ?_⟩
  intro c2 h2
  simp [handleCursorMove, h2]

/-- Witness for the amended claim C8 at a non-numeric coordinate. -/
theorem cursor_move_pure_relay_no_validation_witness :
    hostConn.roomKey = some "room:AB12CD" ∧
    (handleCursorMove hostConn (JsVal.str "NaNish") (JsVal.num 0) =
      { emits := [(Target.roomExcept "room:AB12CD" hostConn.sid,
          EventBody.cursorMove hostConn.user.id hostConn.user.name
            (JsVal.str "NaNish") (JsVal.num 0))] } ∧
    (handleCursorMove hostConn (JsVal.str "NaNish") (JsVal.num 0)).strokeCreates = [] ∧
    (handleCursorMove hostConn (JsVal.str "NaNish") (JsVal.num 0)).msgCreates = [] ∧
    (∀ d : Conn, receivesB d (Target.roomExcept "room:AB12CD" hostConn.sid) =
      (inRoomB d "room:AB12CD" && d.sid != hostConn.sid)) ∧
    receivesB hostConn (Target.roomExcept "room:AB12CD" hostConn.sid) = false ∧
    (∀ c2 : Conn, c2.roomKey = none →
      handleCursorMove c2 (JsVal.str "NaNish") (JsVal.num 0) = {})) :=
  ⟨rfl, cursor_move_pure_relay_no_validation hostConn "room:AB12CD"
    (JsVal.str "NaNish") (JsVal.num 0) rfl⟩

/-- Claim C9: for every accepted send_message the live broadcast always
goes to the room the connection currently holds, while the persisted
record's room code comes from the client-supplied roomId (uppercased)
whenever that field is present — formalised as the code's own fallback
test: a non-empty string — and only falls back to the joined room's id
when the field is absent (or empty); so a client-supplied code for a
different room persists the message under that other room's code while
the broadcast still reaches only the sender's own room. -/
theorem send_message_persists_client_room_code
    (c : Conn) (key rid : String) (textv : String) (now : Nat)
    (hk : c.roomKey = some key) (hr : c.roomId = some rid)
    (ht : jsSlice (jsTrim textv) 500 ≠ "") :
    (∀ other : String, other ≠ "" →
      handleSendMessage c (some other) (some textv) now =
        { msgCreates := [{ roomId := other.toUpper, userId := c.user.id,
                           userName := c.user.name, text := jsSlice (jsTrim textv) 500,
                           sentAt := now }]
          emits := [(Target.room key,
            EventBody.chatMessage c.user.id c.user.name (jsSlice (jsTrim textv) 500) now)] }) ∧
    handleSendMessage c none (some textv) now =
      { msgCreates := [{ roomId := rid.toUpper, userId := c.user.id,
                         userName := c.user.name, text := jsSlice (jsTrim textv) 500,
                         sentAt := now }]
        emits := [(Target.room key,
          EventBody.chatMessage c.user.id c.user.name (jsSlice (jsTrim textv) 500) now)] } ∧
    handleSendMessage c (some "") (some textv) now =
      handleSendMessage c none (some textv) now ∧
    (∀ d : Conn, receivesB d (Target.room key) = inRoomB d key) ∧
    (∀ other : String, other ≠ "" →
      ((handleSendMessage c (some other) (some textv) now).msgCreates.map
        (fun m => m.roomId)) = [other.toUpper]) := by
  have hor : jsOrS rid "" = rid := by
    by_cases h : rid = "" <;> simp [jsOrS, h]
  have hmain : ∀ other : String, other ≠ "" →
      handleSendMessage c (some other) (some textv) now =
        { msgCreates := [{ roomId := other.toUpper, userId := c.user.id,
                           userName := c.user.name, text := jsSlice (jsTrim textv) 500,
                           sentAt := now }]
          emits := [(Target.room key,
            EventBody.chatMessage c.user.id c.user.name (jsSlice (jsTrim textv) 500) now)] } := by
    intro other hother
    simp [handleSendMessage, hk, hr, ht, jsOrS, hother]
  refine ⟨hmain, ?_, ?_, fun d => rfl, ?_⟩
  · by_cases h : rid = "" <;> simp [handleSendMessage, hk, hr, ht, jsOrS, h]
  · simp [handleSendMessage, hk, hr, ht]
  · intro other hother
    rw [hmain other hother]
    rfl

/-- Witness for claim C9: joined to AB12CD, a message sent with
client-supplied roomId ZZ99ZZ persists under ZZ99ZZ while the broadcast
goes to room:AB12CD. -/
theorem send_message_persists_client_room_code_witness :
    hostConn.roomKey = some "room:AB12CD" ∧ hostConn.roomId = some "AB12CD" ∧
    (jsSlice (jsTrim " hi there ") 500 ≠ "") ∧
    (("ZZ99ZZ" : String) ≠ "") ∧
    (handleSendMessage hostConn (some "ZZ99ZZ") (some " hi there ") 9 =
      { msgCreates := [{ roomId := "ZZ99ZZ".toUpper, userId := hostConn.user.id,
                         userName := hostConn.user.name,
                         text := jsSlice (jsTrim " hi there ") 500, sentAt := 9 }]
        emits := [(Target.room "room:AB12CD",
          EventBody.chatMessage hostConn.user.id hostConn.user.name
            (jsSlice (jsTrim " hi there ") 500) 9)] }) ∧
    (handleSendMessage hostConn none (some " hi there ") 9 =
      { msgCreates := [{ roomId := "AB12CD".toUpper, userId := hostConn.user.id,
                         userName := hostConn.user.name,
                         text := jsSlice (jsTrim " hi there ") 500, sentAt := 9 }]
        emits := [(Target.room "room:AB12CD",
          EventBody.chatMessage hostConn.user.id hostConn.user.name
            (jsSlice (jsTrim " hi there ") 500) 9)] }) := by
  have h := send_message_persists_client_room_code hostConn "room:AB12CD" "AB12CD"
    " hi there " 9 rfl rfl (by decide)
  exact ⟨rfl, rfl, by decide, by decide, h.1 "ZZ99ZZ" (by decide), h.2.1⟩

/-- Claim C10: the direct-routed signaling relays (screen:request,
screen:offer, screen:answer, screen:ice) are not gated on room
membership — whatever room key the sender holds, including none at all,
a well-formed envelope is relayed to the target socket id, and the
target receives it whatever room it is in; only screen:start and
screen:stop require the sender to hold a room, doing nothing
otherwise. -/
theorem screen_relay_not_membership_gated
    (c : Conn) (t s : String) (cand : JsVal)
    (ht : t ≠ "") (hs : s ≠ "") (hcand : cand ≠ JsVal.undefV) :
    (∀ rk : Option String, handleScreenOffer { c with roomKey := rk } (some t) (some s) =
      [(Target.room t, EventBody.screenOffer c.sid s)]) ∧
    (∀ rk : Option String, handleScreenAnswer { c with roomKey := rk } (some t) (some s) =
      [(Target.room t, EventBody.screenAnswer c.sid s)]) ∧
    (∀ rk : Option String, handleScreenIce { c with roomKey := rk } (some t) cand =
      [(Target.room t, EventBody.screenIce c.sid cand)]) ∧
    (∀ rk : Option String, handleScreenRequest { c with roomKey := rk } (some t) =
      [(Target.room t, EventBody.screenRequest c.sid)]) ∧
    (∀ d : Conn, d.sid = t → receivesB d (Target.room t) = true) ∧
    handleScreenStart { c with roomKey := none } = ({ c with roomKey := none }, []) ∧
    handleScreenStop { c with roomKey := none } = ({ c with roomKey := none }, []) := by
  refine ⟨?_, ?_, ?_, ?_, ?_, rfl, rfl⟩
  · intro rk; simp [handleScreenOffer, ht, hs]
  · intro rk; simp [handleScreenAnswer, ht, hs]
  · intro rk; cases cand <;> simp_all [handleScreenIce, ht]
  · intro rk; simp [handleScreenRequest, ht]
  · intro d hd; simp [receivesB, inRoomB, hd]

/-- Witness for claim C10 at a sender that has joined no room. -/
theorem screen_relay_not_membership_gated_witness :
    (("sock9" : String) ≠ "" ∧ ("blob" : String) ≠ "" ∧ JsVal.num 1 ≠ JsVal.undefV) ∧
    ((∀ rk : Option String,
        handleScreenOffer { lobbyConn with roomKey := rk } (some "sock9") (some "blob") =
          [(Target.room "sock9", EventBody.screenOffer lobbyConn.sid "blob")]) ∧
    (∀ rk : Option String,
        handleScreenAnswer { lobbyConn with roomKey := rk } (some "sock9") (some "blob") =
          [(Target.room "sock9", EventBody.screenAnswer lobbyConn.sid "blob")]) ∧
    (∀ rk : Option String,
        handleScreenIce { lobbyConn with roomKey := rk } (some "sock9") (JsVal.num 1) =
          [(Target.room "sock9", EventBody.screenIce lobbyConn.sid (JsVal.num 1))]) ∧
    (∀ rk : Option String,
        handleScreenRequest { lobbyConn with roomKey := rk } (some "sock9") =
          [(Target.room "sock9", EventBody.screenRequest lobbyConn.sid)]) ∧
    (∀ d : Conn, d.sid = "sock9" → receivesB d (Target.room "sock9") = true) ∧
    handleScreenStart { lobbyConn with roomKey := none } =
      ({ lobbyConn with roomKey := none }, []) ∧
    handleScreenStop { lobbyConn with roomKey := none } =
      ({ lobbyConn with roomKey := none }, [])) :=
  ⟨⟨by decide, by decide, fun h => JsVal.noConfusion h⟩,
   screen_relay_not_membership_gated lobbyConn "sock9" "blob" (JsVal.num 1)
     (by decide) (by decide) (fun h => JsVal.noConfusion h)⟩
